import Mathlib

/-
Verification of the cupchan triple-buffer channel (src/lib.rs).

The shared status word packs a 3-bit permutation code (values 0..5, one of
the six role-to-slot bijections listed in OBJECT_PERMUTATIONS) together
with a fresh bit at bit 3 (value 8).  A flush XORs the word with
WRITER_STATE_MAP[word]; a read XORs it with READER_STATE_MAP[word].
WRITER_CUP_MAP and READER_CUP_MAP project a word to the slot index owned
by the writer and the reader respectively.
-/

/-- `OBJECT_PERMUTATIONS` from src/lib.rs: the six valid permutation codes.
Code 0 is the configuration with writer at slot 0, storage at slot 1,
reader at slot 2. -/
def OBJECT_PERMUTATIONS : List Nat := [0b000, 0b001, 0b010, 0b011, 0b100, 0b101]

/-- `WRITER_STATE_MAP` from src/lib.rs: the mask XOR-ed into the status word
by `flush`.  Entries 6, 7, 14, 15 are the "Invalid State" marker 0b11111111.
Indexing out of range (which panics in Rust) is given the invalid marker;
no theorem depends on an out-of-range index. -/
def WRITER_STATE_MAP : List Nat :=
  [0b1011, 0b1011, 0b1011, 0b1011, 0b1001, 0b1001, 0b11111111, 0b11111111,
   0b0011, 0b0011, 0b0011, 0b0011, 0b0001, 0b0001, 0b11111111, 0b11111111]

/-- `WRITER_CUP_MAP` from src/lib.rs: which cup index the writer owns in each
status word (3 marks the invalid states). -/
def WRITER_CUP_MAP : List Nat := [0, 0, 2, 1, 2, 1, 3, 3, 0, 0, 2, 1, 2, 1, 3, 3]

/-- `READER_STATE_MAP` from src/lib.rs: the mask XOR-ed into the status word
by a read.  Zero (no state change) for the six words with the fresh bit
clear; 0b11111111 marks the invalid states. -/
def READER_STATE_MAP : List Nat :=
  [0b0000, 0b0000, 0b0000, 0b0000, 0b0000, 0b0000, 0b11111111, 0b11111111,
   0b1001, 0b1001, 0b1110, 0b1110, 0b1110, 0b1110, 0b11111111, 0b11111111]

/-- `READER_CUP_MAP` from src/lib.rs: which cup index the reader owns in each
status word (3 marks the invalid states). -/
def READER_CUP_MAP : List Nat := [2, 1, 1, 2, 0, 0, 3, 3, 2, 1, 1, 2, 0, 0, 3, 3]

/-- The publish transition applied by `CupchanWriter::flush`:
`state ^ WRITER_STATE_MAP[state]`. -/
def publishStep (w : Nat) : Nat := w ^^^ WRITER_STATE_MAP.getD w 0b11111111

/-- The consume transition applied by `CupchanReader::read`:
`state ^ READER_STATE_MAP[state]`. -/
def consumeStep (w : Nat) : Nat := w ^^^ READER_STATE_MAP.getD w 0b11111111

/-- Slot index owned by the writer in status word `w` (`WRITER_CUP_MAP[w]`). -/
def writerSlot (w : Nat) : Nat := WRITER_CUP_MAP.getD w 3

/-- Slot index owned by the reader in status word `w` (`READER_CUP_MAP[w]`). -/
def readerSlot (w : Nat) : Nat := READER_CUP_MAP.getD w 3

/-- Slot index holding the storage role, derived from the role table in the
OBJECT_PERMUTATIONS comments of src/lib.rs (the slot marked S in each of the
six permutations, repeated for the fresh-bit-set words; 3 marks the invalid
states).  The Rust code has no explicit storage map because the storage slot
is never dereferenced, only swapped into the writer or reader role. -/
def STORAGE_CUP_MAP : List Nat := [1, 2, 0, 0, 1, 2, 3, 3, 1, 2, 0, 0, 1, 2, 3, 3]

/-- Slot index holding the storage role in status word `w`. -/
def storageSlot (w : Nat) : Nat := STORAGE_CUP_MAP.getD w 3

/-- A valid status word: permutation code in 0..5 (low three bits), fresh
bit either set or clear, nothing above bit 3.  Exactly the set
\x7b0..5\x7d union \x7b8..13\x7d. -/
abbrev ValidWord (w : Nat) : Prop := w < 16 ∧ w % 8 < 6

/-- The fresh bit (bit 3) of a status word. -/
def freshBit (w : Nat) : Bool := w.testBit 3

/-- Status words reachable from the initial word `OBJECT_PERMUTATIONS[0]`
by publish and consume transitions. -/
inductive Reachable : Nat → Prop
  | init : Reachable (OBJECT_PERMUTATIONS.getD 0 0)
  | publish {w : Nat} : Reachable w → Reachable (publishStep w)
  | consume {w : Nat} : Reachable w → Reachable (consumeStep w)

/-- The shared channel block of src/lib.rs: three cups, the status word and
the disconnect flag.  Cup contents are modelled as a list of payload values;
the atomics are modelled as plain fields since every claim treats each
operation as one atomic step. -/
structure Cupchan (T : Type) where
  cups : List T
  state : Nat
  unconnected : Bool

/-- Writer handle: the channel plus the cached index of the cup the cached
`current_cup` reference points at. -/
structure CupchanWriter (T : Type) where
  chan : Cupchan T
  current_cup : Nat

/-- Reader handle: just the channel. -/
structure CupchanReader (T : Type) where
  chan : Cupchan T

/-- `cupchan` from src/lib.rs: clone the seed into the three cups, start in
state `OBJECT_PERMUTATIONS[0]` with the disconnect flag clear, and hand out
a writer caching `&chan.cups[0]` plus a reader on the same block. -/
def cupchan {T : Type} (initial : T) : CupchanWriter T × CupchanReader T :=
  let chan : Cupchan T :=
    { cups := [initial, initial, initial]
      state := OBJECT_PERMUTATIONS.getD 0 0
      unconnected := false }
  ({ chan := chan, current_cup := 0 }, { chan := chan })

/-- The writer-side state touched by `flush`: the status word and the cached
cup index. -/
structure WriterState where
  word : Nat
  current_cup : Nat

/-- `CupchanWriter::flush`: fetch-update the status word with the writer
XOR mask, then re-derive the cached cup from the updated word
(`WRITER_CUP_MAP[res ^ WRITER_STATE_MAP[res]]` where `res` is the prior
word). -/
def flush (s : WriterState) : WriterState :=
  let res := s.word
  { word := res ^^^ WRITER_STATE_MAP.getD res 0b11111111
    current_cup := WRITER_CUP_MAP.getD (res ^^^ WRITER_STATE_MAP.getD res 0b11111111) 3 }

/-- The disconnect-flag state machine shared by the two Drop impls: the
`unconnected` flag and whether the channel block is still allocated. -/
structure DropState where
  unconnected : Bool
  allocated : Bool

/-- Initial lifecycle state at construction: flag clear, block allocated. -/
def initialDropState : DropState := { unconnected := false, allocated := true }

/-- `impl Drop for CupchanWriter`: swap the disconnect flag to true; if the
prior value was true, drop the channel block in place.  Returns the new
state and whether this drop deallocated. -/
def writerDropStep (s : DropState) : DropState × Bool :=
  let was_unconnected := s.unconnected
  ({ unconnected := true, allocated := s.allocated && !was_unconnected }, was_unconnected)

/-- `impl Drop for CupchanReader`: identical to the writer's drop. -/
def readerDropStep (s : DropState) : DropState × Bool :=
  let was_unconnected := s.unconnected
  ({ unconnected := true, allocated := s.allocated && !was_unconnected }, was_unconnected)

/-- `CupchanWriter::new_reader` over the disconnect flag:
`unconnected.swap(false)`; a replacement handle exists exactly when the
prior value was true.  Returns the optional handle and the new flag. -/
def new_reader (unconnected : Bool) : Option Unit × Bool :=
  (if unconnected then some () else none, false)

/-- `CupchanReader::new_writer`: symmetric to `new_reader`. -/
def new_writer (unconnected : Bool) : Option Unit × Bool :=
  (if unconnected then some () else none, false)

/-- Whole-channel state for the publish/read interleaving model: the status
word, the value index stored in each slot, the index of the next value the
writer will publish, and the value index returned by the most recent read. -/
structure SysState where
  word : Nat
  slots : Nat → Nat
  next : Nat
  lastRead : Nat

/-- One atomic writer step: write value `next` through the cached cup (the
writer-owned slot of the current word) and flush. -/
def publishValue (s : SysState) : SysState :=
  { word := publishStep s.word
    slots := fun i => if i = writerSlot s.word then s.next else s.slots i
    next := s.next + 1
    lastRead := s.lastRead }

/-- One atomic reader step: apply the consume transition and return the cup
`READER_CUP_MAP[res ^ READER_STATE_MAP[res]]`, i.e. the reader slot of the
updated word. -/
def readValue (s : SysState) : SysState :=
  { word := consumeStep s.word
    slots := s.slots
    next := s.next
    lastRead := s.slots (readerSlot (consumeStep s.word)) }

/-- A step of the interleaving: either the writer publishes or the reader
reads. -/
inductive ChanStep : Type
  | publish : ChanStep
  | read : ChanStep

/-- Apply one step. -/
def runStep (s : SysState) : ChanStep → SysState
  | ChanStep.publish => publishValue s
  | ChanStep.read => readValue s

/-- Apply a sequence of steps. -/
def runSteps (s : SysState) : List ChanStep → SysState
  | [] => s
  | a :: rest => runSteps (runStep s a) rest

/-- The state right after construction with seed value index 0: word 0, all
slots holding value 0, the writer about to publish value 1, nothing newer
than the seed observed yet. -/
def initState : SysState :=
  { word := OBJECT_PERMUTATIONS.getD 0 0, slots := fun _ => 0, next := 1, lastRead := 0 }

/-- Invariant of the interleaving model: the word is valid, the last
observed value is at most the value in the reader slot, a fresh storage
slot holds a value at least as new as the reader slot, and no slot holds a
value the writer has not yet published. -/
abbrev SysInv (s : SysState) : Prop :=
  ValidWord s.word ∧
  s.lastRead ≤ s.slots (readerSlot s.word) ∧
  (freshBit s.word = true → s.slots (readerSlot s.word) ≤ s.slots (storageSlot s.word)) ∧
  (∀ i, i < 3 → s.slots i ≤ s.next)

/- ------------------------------------------------------------------ -/
/- Theorems -/
/- ------------------------------------------------------------------ -/

/-- Reduce a statement over all valid words to a decidable bounded check. -/
theorem ball_valid {P : Nat → Prop} (h : ∀ w, w < 16 → w % 8 < 6 → P w) :
    ∀ w, ValidWord w → P w :=
  fun w hw => h w hw.1 hw.2

/-- The publish transition maps valid words to valid words. -/
theorem valid_publishStep : ∀ w, ValidWord w → ValidWord (publishStep w) :=
  ball_valid (by decide)

/-- The consume transition maps valid words to valid words. -/
theorem valid_consumeStep : ∀ w, ValidWord w → ValidWord (consumeStep w) :=
  ball_valid (by decide)

/-- Every reachable status word is valid. -/
theorem reachable_valid : ∀ w, Reachable w → ValidWord w := by
  intro w h
  induction h with
  | init => decide
  | publish _ ih => exact valid_publishStep _ ih
  | consume _ ih => exact valid_consumeStep _ ih

/-- Claim C1: on every valid status word, the publish transition applied by
`flush` yields a valid status word in which the writer and storage slots
are exchanged, the reader slot is unchanged, and the fresh bit is set. -/
theorem publish_exchanges_writer_storage :
    ∀ w, ValidWord w →
      ValidWord (publishStep w) ∧
      writerSlot (publishStep w) = storageSlot w ∧
      storageSlot (publishStep w) = writerSlot w ∧
      readerSlot (publishStep w) = readerSlot w ∧
      freshBit (publishStep w) = true :=
  ball_valid (by decide)

/-- Witness for C1 at the initial word 0. -/
theorem publish_exchanges_writer_storage_witness :
    ValidWord 0 ∧
      (ValidWord (publishStep 0) ∧
        writerSlot (publishStep 0) = storageSlot 0 ∧
        storageSlot (publishStep 0) = writerSlot 0 ∧
        readerSlot (publishStep 0) = readerSlot 0 ∧
        freshBit (publishStep 0) = true) :=
  ⟨by decide, publish_exchanges_writer_storage 0 (by decide)⟩

/-- Claim C2: on a valid status word with the fresh bit set, the consume
transition exchanges the reader and storage slots, leaves the writer slot
unchanged and clears the fresh bit; with the fresh bit clear the XOR mask
is zero, so the word — and hence the reader's slot — is unchanged. -/
theorem consume_exchanges_reader_storage :
    ∀ w, ValidWord w →
      (freshBit w = true →
        ValidWord (consumeStep w) ∧
        readerSlot (consumeStep w) = storageSlot w ∧
        storageSlot (consumeStep w) = readerSlot w ∧
        writerSlot (consumeStep w) = writerSlot w ∧
        freshBit (consumeStep w) = false) ∧
      (freshBit w = false → consumeStep w = w) :=
  ball_valid (by decide)

/-- Witness for C2 at the fresh word 8. -/
theorem consume_exchanges_reader_storage_witness :
    ValidWord 8 ∧
      ((freshBit 8 = true →
        ValidWord (consumeStep 8) ∧
        readerSlot (consumeStep 8) = storageSlot 8 ∧
        storageSlot (consumeStep 8) = readerSlot 8 ∧
        writerSlot (consumeStep 8) = writerSlot 8 ∧
        freshBit (consumeStep 8) = false) ∧
      (freshBit 8 = false → consumeStep 8 = 8)) :=
  ⟨by decide, consume_exchanges_reader_storage 8 (by decide)⟩

/-- Counterexample to claim C3: at the valid fresh word 8, publish-then-
consume and consume-then-publish give different status words (10 versus 5),
and the two results assign the writer and the reader to different slots, so
the resulting role-to-slot assignments differ as well. -/
theorem publish_consume_not_commutative :
    ValidWord 8 ∧ freshBit 8 = true ∧
      consumeStep (publishStep 8) = 5 ∧
      publishStep (consumeStep 8) = 10 ∧
      consumeStep (publishStep 8) ≠ publishStep (consumeStep 8) ∧
      writerSlot (consumeStep (publishStep 8)) ≠ writerSlot (publishStep (consumeStep 8)) ∧
      readerSlot (consumeStep (publishStep 8)) ≠ readerSlot (publishStep (consumeStep 8)) := by
  decide

/-- Claim C3 amended: the two orders need not produce the same word or role
assignment; what holds is the non-interference core — publish never moves
the reader's slot, consume never moves the writer's slot, and both
composition orders stay within the valid words. -/
theorem publish_consume_non_interference :
    ∀ w, ValidWord w → freshBit w = true →
      readerSlot (publishStep w) = readerSlot w ∧
      writerSlot (consumeStep w) = writerSlot w ∧
      ValidWord (consumeStep (publishStep w)) ∧
      ValidWord (publishStep (consumeStep w)) :=
  ball_valid (by decide)

/-- Witness for the amended C3 at the fresh word 8. -/
theorem publish_consume_non_interference_witness :
    ValidWord 8 ∧ freshBit 8 = true ∧
      (readerSlot (publishStep 8) = readerSlot 8 ∧
        writerSlot (consumeStep 8) = writerSlot 8 ∧
        ValidWord (consumeStep (publishStep 8)) ∧
        ValidWord (publishStep (consumeStep 8))) :=
  ⟨by decide, by decide, publish_consume_non_interference 8 (by decide) (by decide)⟩

/-- Claim C4: every reachable status word assigns the writer, reader and
storage roles to pairwise distinct slots among the three cups — the roles
form a bijection onto the slots. -/
theorem reachable_roles_bijective :
    ∀ w, Reachable w →
      writerSlot w ≠ readerSlot w ∧
      writerSlot w ≠ storageSlot w ∧
      readerSlot w ≠ storageSlot w ∧
      writerSlot w < 3 ∧ readerSlot w < 3 ∧ storageSlot w < 3 := by
  intro w hw
  have key : ∀ v, ValidWord v →
      writerSlot v ≠ readerSlot v ∧
      writerSlot v ≠ storageSlot v ∧
      readerSlot v ≠ storageSlot v ∧
      writerSlot v < 3 ∧ readerSlot v < 3 ∧ storageSlot v < 3 :=
    ball_valid (by decide)
  exact key w (reachable_valid w hw)

/-- Witness for C4 at the initial word. -/
theorem reachable_roles_bijective_witness :
    writerSlot 0 ≠ readerSlot 0 ∧
      writerSlot 0 ≠ storageSlot 0 ∧
      readerSlot 0 ≠ storageSlot 0 ∧
      writerSlot 0 < 3 ∧ readerSlot 0 < 3 ∧ storageSlot 0 < 3 :=
  reachable_roles_bijective 0 Reachable.init

/-- Claim C10: every reachable status word lies in \x7b0..5\x7d union
\x7b8..13\x7d; on such words the transition tables never return the
0b11111111 invalid marker nor the cup index 3, and the cup lookups done by
`flush` and `read` on the updated word stay below 3, inside the bounds of
the 3-element cups array. -/
theorem reachable_in_bounds :
    ∀ w, Reachable w →
      (w < 6 ∨ (8 ≤ w ∧ w < 14)) ∧
      WRITER_STATE_MAP.getD w 0b11111111 ≠ 0b11111111 ∧
      READER_STATE_MAP.getD w 0b11111111 ≠ 0b11111111 ∧
      WRITER_CUP_MAP.getD w 3 ≠ 3 ∧
      READER_CUP_MAP.getD w 3 ≠ 3 ∧
      writerSlot (publishStep w) < 3 ∧
      readerSlot (consumeStep w) < 3 := by
  intro w hw
  have key : ∀ v, ValidWord v →
      (v < 6 ∨ (8 ≤ v ∧ v < 14)) ∧
      WRITER_STATE_MAP.getD v 0b11111111 ≠ 0b11111111 ∧
      READER_STATE_MAP.getD v 0b11111111 ≠ 0b11111111 ∧
      WRITER_CUP_MAP.getD v 3 ≠ 3 ∧
      READER_CUP_MAP.getD v 3 ≠ 3 ∧
      writerSlot (publishStep v) < 3 ∧
      readerSlot (consumeStep v) < 3 :=
    ball_valid (by decide)
  exact key w (reachable_valid w hw)

/-- Witness for C10 at the initial word. -/
theorem reachable_in_bounds_witness :
    ((0 : Nat) < 6 ∨ (8 ≤ (0 : Nat) ∧ (0 : Nat) < 14)) ∧
      WRITER_STATE_MAP.getD 0 0b11111111 ≠ 0b11111111 ∧
      READER_STATE_MAP.getD 0 0b11111111 ≠ 0b11111111 ∧
      WRITER_CUP_MAP.getD 0 3 ≠ 3 ∧
      READER_CUP_MAP.getD 0 3 ≠ 3 ∧
      writerSlot (publishStep 0) < 3 ∧
      readerSlot (consumeStep 0) < 3 :=
  reachable_in_bounds 0 Reachable.init

/-- Claim C5: dropping the two handles in either order from the freshly
constructed lifecycle state deallocates the block exactly once, and only at
the second drop: the first drop observes the flag clear and leaves the
block allocated, the second observes it set and frees it. -/
theorem drops_deallocate_exactly_once :
    ((writerDropStep initialDropState).2 = false ∧
      (writerDropStep initialDropState).1.allocated = true ∧
      (readerDropStep (writerDropStep initialDropState).1).2 = true ∧
      (readerDropStep (writerDropStep initialDropState).1).1.allocated = false) ∧
    ((readerDropStep initialDropState).2 = false ∧
      (readerDropStep initialDropState).1.allocated = true ∧
      (writerDropStep (readerDropStep initialDropState).1).2 = true ∧
      (writerDropStep (readerDropStep initialDropState).1).1.allocated = false) := by
  decide

/-- Claim C6: `new_reader` and `new_writer` return a replacement handle
exactly when the prior disconnect-flag value was true, and the flag is
false afterwards in every case — so a swap that observed false left the
flag's value unchanged. -/
theorem reconnect_claims_vacancy :
    ∀ u : Bool,
      ((new_reader u).1.isSome = u ∧ (new_reader u).2 = false) ∧
      ((new_writer u).1.isSome = u ∧ (new_writer u).2 = false) := by
  decide

/-- Claim C7: construction seeds all three cups with the initial value,
starts in the permutation with writer at slot 0, storage at slot 1 and
reader at slot 2, fresh bit clear, disconnect flag clear, and returns a
writer caching cup 0 and a reader on the same block. -/
theorem cupchan_initial_configuration (T : Type) (initial : T) :
    (cupchan initial).1.chan.cups = [initial, initial, initial] ∧
      (cupchan initial).1.chan.state = 0b000 ∧
      writerSlot (cupchan initial).1.chan.state = 0 ∧
      storageSlot (cupchan initial).1.chan.state = 1 ∧
      readerSlot (cupchan initial).1.chan.state = 2 ∧
      freshBit (cupchan initial).1.chan.state = false ∧
      (cupchan initial).1.chan.unconnected = false ∧
      (cupchan initial).1.current_cup = 0 ∧
      (cupchan initial).2.chan = (cupchan initial).1.chan := by
  refine ⟨rfl, rfl, rfl, rfl, rfl, ?_, rfl, rfl, rfl⟩
  show freshBit 0b000 = false
  decide

/-- Claim C8: after a `flush` from any valid status word, the cached cup
index is exactly the writer slot of the updated status word, which is the
slot that held the storage role before the flush. -/
theorem flush_caches_new_writer_slot :
    ∀ s : WriterState, ValidWord s.word →
      (flush s).current_cup = writerSlot (flush s).word ∧
      (flush s).current_cup = storageSlot s.word ∧
      ValidWord (flush s).word := by
  intro s h
  have key : ∀ w, ValidWord w →
      writerSlot (publishStep w) = storageSlot w ∧ ValidWord (publishStep w) :=
    ball_valid (by decide)
  exact ⟨rfl, (key s.word h).1, (key s.word h).2⟩

/-- Witness for C8 at the initial writer state. -/
theorem flush_caches_new_writer_slot_witness :
    (flush ⟨0, 0⟩).current_cup = writerSlot (flush ⟨0, 0⟩).word ∧
      (flush ⟨0, 0⟩).current_cup = storageSlot (WriterState.mk 0 0).word ∧
      ValidWord (flush ⟨0, 0⟩).word :=
  flush_caches_new_writer_slot ⟨0, 0⟩ (by decide)

/-- Decidable facts about a publish step needed by the interleaving model. -/
theorem publish_model_facts :
    ∀ w, ValidWord w →
      ValidWord (publishStep w) ∧
      readerSlot (publishStep w) = readerSlot w ∧
      storageSlot (publishStep w) = writerSlot w ∧
      freshBit (publishStep w) = true ∧
      readerSlot w ≠ writerSlot w ∧
      readerSlot w < 3 ∧ writerSlot w < 3 :=
  ball_valid (by decide)

/-- After a consume step from a valid word the fresh bit is clear. -/
theorem consume_clears_fresh : ∀ w, ValidWord w → freshBit (consumeStep w) = false :=
  ball_valid (by decide)

/-- With the fresh bit set, a consume step hands the old storage slot to the
reader. -/
theorem consume_adopts_storage :
    ∀ w, ValidWord w → freshBit w = true →
      readerSlot (consumeStep w) = storageSlot w ∧ storageSlot w < 3 :=
  ball_valid (by decide)

/-- With the fresh bit clear, a consume step is a no-op on the word. -/
theorem consume_noop :
    ∀ w, ValidWord w → freshBit w = false → consumeStep w = w :=
  ball_valid (by decide)

/-- The invariant survives a publish step. -/
theorem sysInv_publish (s : SysState) (h : SysInv s) : SysInv (publishValue s) := by
  obtain ⟨hv, hlast, hfresh, hbound⟩ := h
  obtain ⟨hv', hr, hs, hf, hne, hrlt, hwlt⟩ := publish_model_facts s.word hv
  refine ⟨hv', ?_, ?_, ?_⟩
  · show s.lastRead ≤
      (if readerSlot (publishStep s.word) = writerSlot s.word then s.next
        else s.slots (readerSlot (publishStep s.word)))
    rw [hr, if_neg hne]
    exact hlast
  · intro _
    show (if readerSlot (publishStep s.word) = writerSlot s.word then s.next
        else s.slots (readerSlot (publishStep s.word))) ≤
      (if storageSlot (publishStep s.word) = writerSlot s.word then s.next
        else s.slots (storageSlot (publishStep s.word)))
    rw [hr, hs, if_neg hne, if_pos rfl]
    exact hbound _ hrlt
  · intro i hi
    show (if i = writerSlot s.word then s.next else s.slots i) ≤ s.next + 1
    by_cases hc : i = writerSlot s.word
    · rw [if_pos hc]
      exact Nat.le_succ _
    · rw [if_neg hc]
      exact Nat.le_trans (hbound i hi) (Nat.le_succ _)

/-- The invariant survives a read step. -/
theorem sysInv_read (s : SysState) (h : SysInv s) : SysInv (readValue s) := by
  obtain ⟨hv, hlast, hfresh, hbound⟩ := h
  refine ⟨valid_consumeStep s.word hv, Nat.le_refl _, ?_, hbound⟩
  intro hcontra
  rw [show (readValue s).word = consumeStep s.word from rfl,
    consume_clears_fresh s.word hv] at hcontra
  cases hcontra

/-- A read step never decreases the most recently observed value. -/
theorem read_lastRead_mono (s : SysState) (h : SysInv s) :
    s.lastRead ≤ (readValue s).lastRead := by
  obtain ⟨hv, hlast, hfresh, hbound⟩ := h
  show s.lastRead ≤ s.slots (readerSlot (consumeStep s.word))
  cases hb : freshBit s.word with
  | false =>
    rw [consume_noop s.word hv hb]
    exact hlast
  | true =>
    obtain ⟨hr, _⟩ := consume_adopts_storage s.word hv hb
    rw [hr]
    exact Nat.le_trans hlast (hfresh hb)

/-- The invariant survives every step. -/
theorem sysInv_step (s : SysState) (a : ChanStep) (h : SysInv s) : SysInv (runStep s a) := by
  cases a
  · exact sysInv_publish s h
  · exact sysInv_read s h

/-- No single step decreases the most recently observed value. -/
theorem step_lastRead_mono (s : SysState) (a : ChanStep) (h : SysInv s) :
    s.lastRead ≤ (runStep s a).lastRead := by
  cases a
  · exact Nat.le_refl _
  · exact read_lastRead_mono s h

/-- Running any step sequence preserves the invariant and never decreases
the most recently observed value. -/
theorem runSteps_inv_mono (l : List ChanStep) :
    ∀ s, SysInv s → SysInv (runSteps s l) ∧ s.lastRead ≤ (runSteps s l).lastRead := by
  induction l with
  | nil => exact fun s h => ⟨h, Nat.le_refl _⟩
  | cons a t ih =>
    intro s h
    obtain ⟨h3, h4⟩ := ih (runStep s a) (sysInv_step s a h)
    exact ⟨h3, Nat.le_trans (step_lastRead_mono s a h) h4⟩

/-- Running an appended step sequence runs the pieces in order. -/
theorem runSteps_append (l₁ : List ChanStep) :
    ∀ (s : SysState) (l₂ : List ChanStep),
      runSteps s (l₁ ++ l₂) = runSteps (runSteps s l₁) l₂ := by
  induction l₁ with
  | nil => exact fun s l₂ => rfl
  | cons a t ih =>
    intro s l₂
    show runSteps (runStep s a) (t ++ l₂) = runSteps (runSteps (runStep s a) t) l₂
    exact ih (runStep s a) l₂

/-- The invariant holds right after construction. -/
theorem sysInv_initState : SysInv initState := by decide

/-- Claim C9: in the interleaving model of atomic publish and read steps,
the value index returned by the most recent read never decreases as the
trace is extended: once the reader has observed value k, no later read
returns an earlier value. -/
theorem reader_never_goes_backwards :
    ∀ l₁ l₂ : List ChanStep,
      (runSteps initState l₁).lastRead ≤ (runSteps initState (l₁ ++ l₂)).lastRead := by
  intro l₁ l₂
  rw [runSteps_append]
  exact (runSteps_inv_mono l₂ (runSteps initState l₁)
    ((runSteps_inv_mono l₁ initState sysInv_initState).1)).2
